import Mathlib

/-!
# Verification of the gas2mqtt signal-processing core

Shallow embedding of the gas2mqtt repository's domain logic:

* `SchmittTrigger` — `gas2mqtt/domain/schmitt.py` (hysteresis comparator)
* `ConsumptionTracker` — `gas2mqtt/domain/consumption.py`
* `EwmaFilter` — `gas2mqtt/domain/ewma.py`
* `processPoll`, `restoreCounter`, `restoreConsumption`, `buildState`,
  `saveState`, `handleCommand` — `gas2mqtt/devices/gas_counter.py`

Python `float` values are modelled as exact rationals (`ℚ`); Python `int`
as `Int` (arbitrary precision in Python, so no modular wrap is added beyond
the explicit `% COUNTER_MODULUS` the code performs).  JSON values held by
the persistent device store and carried by MQTT command payloads are
modelled by the inductive `PyValue`.
-/

namespace Gas2Mqtt

/-- Binary state of the Schmitt trigger (`TriggerState` in `schmitt.py`). -/
inductive TriggerState where
  | LOW
  | HIGH
deriving DecidableEq

/-- Record of a state transition (`TriggerEvent` in `schmitt.py`). -/
structure TriggerEvent where
  previous : TriggerState
  current : TriggerState
  is_rising_edge : Bool
deriving DecidableEq

/-- The Schmitt trigger object: the two construction parameters plus the
mutable `_state` field of `SchmittTrigger` in `schmitt.py`. -/
structure SchmittTrigger where
  level : Int
  hysteresis : Int
  state : TriggerState
deriving DecidableEq

/-- `SchmittTrigger.__init__`: stores `level`, `hysteresis` and starts LOW. -/
def SchmittTrigger.init (level hysteresis : Int) : SchmittTrigger :=
  { level := level, hysteresis := hysteresis, state := TriggerState.LOW }

/-- `upper = self._level + self._hysteresis` computed inside `update`. -/
def SchmittTrigger.upper (t : SchmittTrigger) : Int := t.level + t.hysteresis

/-- `lower = self._level - self._hysteresis` computed inside `update`. -/
def SchmittTrigger.lower (t : SchmittTrigger) : Int := t.level - t.hysteresis

/-- `SchmittTrigger.update` from `schmitt.py`: returns the emitted event (if
any) together with the trigger after the call (state passing replaces the
in-place mutation of `self._state`). -/
def SchmittTrigger.update (t : SchmittTrigger) (bz : Int) :
    Option TriggerEvent × SchmittTrigger :=
  let cand : Option TriggerState :=
    if bz > t.upper then some TriggerState.HIGH
    else if bz < t.lower then some TriggerState.LOW
    else none
  match cand with
  | none => (none, t)
  | some newState =>
    if newState = t.state then (none, t)
    else
      let previous := t.state
      let isRising := previous == TriggerState.LOW && newState == TriggerState.HIGH
      (some { previous := previous, current := newState, is_rising_edge := isRising },
       { t with state := newState })

/-- `SchmittTrigger.reset`: unconditionally back to LOW, no event. -/
def SchmittTrigger.reset (t : SchmittTrigger) : SchmittTrigger :=
  { t with state := TriggerState.LOW }

/-- `COUNTER_MODULUS = 0x10000` from `gas_counter.py`. -/
def COUNTER_MODULUS : Int := 0x10000

/-- Cumulative gas consumption (`ConsumptionTracker` in `consumption.py`). -/
structure ConsumptionTracker where
  liters_per_tick : ℚ
  consumption_m3 : ℚ
deriving DecidableEq

/-- `ConsumptionTracker.tick`: add `liters_per_tick / 1000.0`, return the
new total together with the updated tracker. -/
def ConsumptionTracker.tick (t : ConsumptionTracker) : ℚ × ConsumptionTracker :=
  let v := t.consumption_m3 + t.liters_per_tick / 1000
  (v, { t with consumption_m3 := v })

/-- `ConsumptionTracker.set_consumption`: overwrite the total. -/
def ConsumptionTracker.set_consumption (t : ConsumptionTracker) (m3 : ℚ) :
    ConsumptionTracker :=
  { t with consumption_m3 := m3 }

/-- `ConsumptionTracker.reset`: total back to zero. -/
def ConsumptionTracker.reset (t : ConsumptionTracker) : ConsumptionTracker :=
  { t with consumption_m3 := 0 }

/-- Result of one `_process_poll` call in `gas_counter.py`, with the
trigger and (optional) consumption tracker threaded through explicitly. -/
structure PollResult where
  trigger : SchmittTrigger
  counter : Int
  consumption : Option ConsumptionTracker
  should_publish : Bool
deriving DecidableEq

/-- `_process_poll` from `gas_counter.py`, applied to an already-read `bz`
value: feed the trigger, and on a rising edge increment the counter modulo
`COUNTER_MODULUS` and tick the consumption tracker when present. -/
def processPoll (trigger : SchmittTrigger) (counter : Int)
    (consumption : Option ConsumptionTracker) (bz : Int) : PollResult :=
  let (event, trigger) := trigger.update bz
  match event with
  | none => { trigger := trigger, counter := counter, consumption := consumption,
              should_publish := false }
  | some e =>
    if e.is_rising_edge then
      let counter := (counter + 1) % COUNTER_MODULUS
      let consumption := consumption.map (fun c => (c.tick).2)
      { trigger := trigger, counter := counter, consumption := consumption,
        should_publish := true }
    else
      { trigger := trigger, counter := counter, consumption := consumption,
        should_publish := true }

/-- The polling loop body iterated over a list of `bz` readings: the fold of
`processPoll` threading trigger, counter and consumption. -/
def runLoop (trigger : SchmittTrigger) (counter : Int)
    (consumption : Option ConsumptionTracker) :
    List Int → SchmittTrigger × Int × Option ConsumptionTracker
  | [] => (trigger, counter, consumption)
  | bz :: rest =>
    let r := processPoll trigger counter consumption bz
    runLoop r.trigger r.counter r.consumption rest

/-- The list of events emitted by feeding a list of readings through
`SchmittTrigger.update`, together with the final trigger. -/
def runEvents (t : SchmittTrigger) : List Int → List TriggerEvent × SchmittTrigger
  | [] => ([], t)
  | bz :: rest =>
    let (ev, t1) := t.update bz
    let (evs, t2) := runEvents t1 rest
    (match ev with | none => evs | some e => e :: evs, t2)

/-- The default configuration from `settings.py`:
`trigger_level = -5000`, `trigger_hysteresis = 700`. -/
def defaultTriggerLevel : Int := -5000

/-- Default `trigger_hysteresis` from `settings.py`. -/
def defaultTriggerHysteresis : Int := 700

/-- The EWMA low-pass filter (`EwmaFilter` in `ewma.py`): smoothing factor
`alpha` plus the optional `_value` seeded on first update. -/
structure EwmaFilter where
  alpha : ℚ
  value : Option ℚ
deriving DecidableEq

/-- `EwmaFilter.__init__`: store alpha, `_value = None`. -/
def EwmaFilter.init (alpha : ℚ) : EwmaFilter :=
  { alpha := alpha, value := none }

/-- `EwmaFilter.update`: first call seeds with the raw value; later calls
compute `(1 - alpha) * previous + alpha * raw`. -/
def EwmaFilter.update (f : EwmaFilter) (raw : ℚ) : ℚ × EwmaFilter :=
  match f.value with
  | none => (raw, { f with value := some raw })
  | some v =>
    let nv := (1 - f.alpha) * v + f.alpha * raw
    (nv, { f with value := some nv })

/-- `EwmaFilter.reset`: clear the seeded value. -/
def EwmaFilter.reset (f : EwmaFilter) : EwmaFilter :=
  { f with value := none }

/-- JSON-decoded Python values as held by the device store and carried by
command payloads: `int`, `bool`, `float`, `str`, `None`, `list`, `dict`. -/
inductive PyValue where
  | vint (n : Int)
  | vbool (b : Bool)
  | vfloat (q : ℚ)
  | vstr (s : String)
  | vnull
  | vlist (xs : List PyValue)
  | vdict (kvs : List (String × PyValue))

/-- Decimal value of a digit list (most significant first). -/
def decDigitsVal (cs : List Char) : Nat :=
  cs.foldl (fun a c => a * 10 + (c.toNat - 48)) 0

/-- Sign-and-digits body of Python `int(str)`. -/
def parsePyIntChars (cs : List Char) : Option Int :=
  match cs with
  | [] => none
  | c :: rest =>
    let body := if c = '-' ∨ c = '+' then rest else cs
    let sign : Int := if c = '-' then -1 else 1
    if !body.isEmpty && body.all Char.isDigit then
      some (sign * (decDigitsVal body : Int))
    else none

/-- ASCII whitespace stripped by Python's numeric constructors. -/
def isPySpace (c : Char) : Bool :=
  c = ' ' || c = '\t' || c = '\n' || c = '\r'

/-- Strip leading and trailing whitespace from a character list. -/
def trimChars (cs : List Char) : List Char :=
  ((cs.dropWhile isPySpace).reverse.dropWhile isPySpace).reverse

/-- Modelled Python `int(str)`: optional surrounding whitespace, optional
sign, then decimal digits (digit-group underscores are not modelled). -/
def pyIntOfString (s : String) : Option Int :=
  parsePyIntChars (trimChars s.toList)

/-- Unsigned body of Python `float(str)`: digits with at most one decimal
point, at least one digit overall (exponents are not modelled). -/
def parsePyFloatBody (cs : List Char) : Option ℚ :=
  if cs.contains '.' then
    let intPart := cs.takeWhile (fun c => c != '.')
    let fracPart := (cs.dropWhile (fun c => c != '.')).drop 1
    if fracPart.contains '.' then none
    else if intPart.isEmpty && fracPart.isEmpty then none
    else if intPart.all Char.isDigit && fracPart.all Char.isDigit then
      some ((decDigitsVal intPart : ℚ) +
        (decDigitsVal fracPart : ℚ) / ((10 : ℚ) ^ fracPart.length))
    else none
  else if !cs.isEmpty && cs.all Char.isDigit then
    some (decDigitsVal cs : ℚ)
  else none

/-- Modelled Python `float(str)`: trimmed, optionally signed decimal. -/
def pyFloatOfString (s : String) : Option ℚ :=
  match trimChars s.toList with
  | [] => none
  | c :: rest =>
    if c = '-' then (parsePyFloatBody rest).map (fun q => -q)
    else if c = '+' then parsePyFloatBody rest
    else parsePyFloatBody (c :: rest)

/-- Python `int(float)`: truncation toward zero. -/
def pyTrunc (q : ℚ) : Int := Int.tdiv q.num q.den

/-- `_restore_counter` from `gas_counter.py`: `raw = store.get("counter", 0)`
then `int(raw) if isinstance(raw, (int, float, str)) else 0`.  Python's
`bool` is an `int` subclass, so it passes the `isinstance` check; `int` of
a string that is not an integer literal raises `ValueError`, which
`_restore_counter` does not catch. -/
def restoreCounter (stored : Option PyValue) : Except String Int :=
  match stored with
  | none => Except.ok 0
  | some (PyValue.vint n) => Except.ok n
  | some (PyValue.vbool b) => Except.ok (if b then 1 else 0)
  | some (PyValue.vfloat q) => Except.ok (pyTrunc q)
  | some (PyValue.vstr s) =>
    match pyIntOfString s with
    | some n => Except.ok n
    | none => Except.error "ValueError"
  | some _ => Except.ok 0

/-- `_restore_consumption` from `gas_counter.py`: `None` when tracking is
disabled; otherwise start from 0.0 or from the stored `consumption_m3`
coerced with `float(raw) if isinstance(raw, (int, float, str)) else 0.0`
(a stored JSON `null` loads as Python `None` and is treated as absent). -/
def restoreConsumption (enable : Bool) (litersPerTick : ℚ)
    (stored : Option PyValue) : Except String (Option ConsumptionTracker) :=
  if !enable then Except.ok none
  else
    match stored with
    | none => Except.ok (some ⟨litersPerTick, 0⟩)
    | some PyValue.vnull => Except.ok (some ⟨litersPerTick, 0⟩)
    | some (PyValue.vint n) => Except.ok (some ⟨litersPerTick, (n : ℚ)⟩)
    | some (PyValue.vbool b) => Except.ok (some ⟨litersPerTick, if b then 1 else 0⟩)
    | some (PyValue.vfloat q) => Except.ok (some ⟨litersPerTick, q⟩)
    | some (PyValue.vstr s) =>
      match pyFloatOfString s with
      | some q => Except.ok (some ⟨litersPerTick, q⟩)
      | none => Except.error "ValueError"
    | some _ => Except.ok (some ⟨litersPerTick, 0⟩)

/-- Python `round(x)` (no digits argument): round half to even. -/
def pyRoundHalfEven (q : ℚ) : Int :=
  let f : Int := Int.floor q
  let r : ℚ := q - (f : ℚ)
  if r < 1/2 then f
  else if 1/2 < r then f + 1
  else if f % 2 = 0 then f else f + 1

/-- Python `round(x, 3)` modelled over exact rationals: half-to-even at the
third decimal. -/
def round3 (q : ℚ) : ℚ := (pyRoundHalfEven (q * 1000) : ℚ) / 1000

/-- The published state snapshot: `{"counter": ..., "trigger": ...}` plus
`consumption_m3` when tracking is enabled. -/
structure StatePayload where
  counter : Int
  trigger : String
  consumption_m3 : Option ℚ
deriving DecidableEq

/-- `_build_state` from `gas_counter.py`: counter, `"CLOSED"` when the
trigger is HIGH else `"OPEN"`, and the 3-decimal-rounded consumption when
a tracker is present. -/
def buildState (counter : Int) (ts : TriggerState)
    (consumption : Option ConsumptionTracker) : StatePayload :=
  { counter := counter,
    trigger := if ts = TriggerState.HIGH then "CLOSED" else "OPEN",
    consumption_m3 := consumption.map (fun c => round3 c.consumption_m3) }

/-- What `_save_state` writes: the state payload with the transient
`trigger` field popped. -/
structure PersistRecord where
  counter : Int
  consumption_m3 : Option ℚ
deriving DecidableEq

/-- `_save_state` from `gas_counter.py`: build the state and pop `trigger`
before writing it to the store. -/
def saveState (st : StatePayload) : PersistRecord :=
  { counter := st.counter, consumption_m3 := st.consumption_m3 }

/-- The start-up sequence of the `gas_counter` coroutine: construct a fresh
trigger (always LOW), restore counter and consumption from the store, and
build the first published state snapshot. -/
def startupState (storedCounter storedConsumption : Option PyValue)
    (enable : Bool) (litersPerTick : ℚ) (level hysteresis : Int) :
    Except String StatePayload := do
  let trigger := SchmittTrigger.init level hysteresis
  let counter ← restoreCounter storedCounter
  let consumption ← restoreConsumption enable litersPerTick storedConsumption
  Except.ok (buildState counter trigger.state consumption)

/-- Result of one main-loop iteration of `gas_counter`: updated state plus
what was published and what was persisted (if anything). -/
structure IterResult where
  trigger : SchmittTrigger
  counter : Int
  consumption : Option ConsumptionTracker
  published : Option StatePayload
  persisted : Option PersistRecord
deriving DecidableEq

/-- One iteration of the `gas_counter` main loop (the magnetometer reading
already in hand): `_process_poll`, then when `should_publish` holds publish
`_build_state()` and run `_save_state()`. -/
def loopIter (trigger : SchmittTrigger) (counter : Int)
    (consumption : Option ConsumptionTracker) (bz : Int) : IterResult :=
  let r := processPoll trigger counter consumption bz
  if r.should_publish then
    let st := buildState r.counter r.trigger.state r.consumption
    { trigger := r.trigger, counter := r.counter, consumption := r.consumption,
      published := some st, persisted := some (saveState st) }
  else
    { trigger := r.trigger, counter := r.counter, consumption := r.consumption,
      published := none, persisted := none }

/-- Substring test on character lists (Python `needle in haystack` for
strings). -/
def hasSub (needle : List Char) : List Char → Bool
  | [] => needle.isEmpty
  | c :: rest => needle.isPrefixOf (c :: rest) || hasSub needle rest

/-- Python `key in data` on a JSON-decoded value: key membership for dicts,
element membership for lists, substring for strings, `TypeError`
otherwise. -/
def pyContains (v : PyValue) (key : String) : Except String Bool :=
  match v with
  | PyValue.vdict kvs => Except.ok (kvs.any (fun kv => kv.1 == key))
  | PyValue.vlist xs =>
    Except.ok (xs.any (fun x =>
      match x with
      | PyValue.vstr s => s == key
      | _ => false))
  | PyValue.vstr s => Except.ok (hasSub key.toList s.toList)
  | _ => Except.error "TypeError"

/-- Python `data[key]` with a string key: dict lookup (`KeyError` when the
key is absent), `TypeError` for every non-dict value. -/
def pyGetItem (v : PyValue) (key : String) : Except String PyValue :=
  match v with
  | PyValue.vdict kvs =>
    match kvs.find? (fun kv => kv.1 == key) with
    | some kv => Except.ok kv.2
    | none => Except.error "KeyError"
  | _ => Except.error "TypeError"

/-- Python `float(v)` on a JSON-decoded value. -/
def pyFloat (v : PyValue) : Except String ℚ :=
  match v with
  | PyValue.vint n => Except.ok (n : ℚ)
  | PyValue.vbool b => Except.ok (if b then 1 else 0)
  | PyValue.vfloat q => Except.ok q
  | PyValue.vstr s =>
    match pyFloatOfString s with
    | some q => Except.ok q
    | none => Except.error "ValueError"
  | _ => Except.error "TypeError"

/-- Result of one `handle_command` invocation. -/
structure CmdResult where
  consumption : Option ConsumptionTracker
  counter : Int
  published : Option StatePayload
  persisted : Option PersistRecord
deriving DecidableEq

/-- The `try` block of `handle_command` up to the `float(...)` coercion:
decode (a `none` argument models a `json.JSONDecodeError`), test
`"consumption_m3" in data`, index, coerce.  `Except.error` is a raised
(and later caught) exception; `Except.ok none` is the silent fall-through
when the key is absent. -/
def parseConsumptionCmd (parsed : Option PyValue) : Except String (Option ℚ) :=
  match parsed with
  | none => Except.error "JSONDecodeError"
  | some data =>
    match pyContains data "consumption_m3" with
    | Except.error err => Except.error err
    | Except.ok false => Except.ok none
    | Except.ok true =>
      match pyGetItem data "consumption_m3" with
      | Except.error err => Except.error err
      | Except.ok v =>
        match pyFloat v with
        | Except.error err => Except.error err
        | Except.ok m3 => Except.ok (some m3)

/-- `handle_command` from `gas_counter.py`, applied to the JSON-decode
result of the payload.  Every caught-exception path (decode error, `in` on
a non-container, failing `float(...)` coercion) and the missing-key /
tracking-disabled paths leave all state unchanged and neither publish nor
persist; a numeric `consumption_m3` sets the tracker, publishes the
rebuilt state and persists it. -/
def handleCommand (consumption : Option ConsumptionTracker) (counter : Int)
    (trigger : SchmittTrigger) (parsed : Option PyValue) : CmdResult :=
  match consumption with
  | none =>
    { consumption := none, counter := counter, published := none,
      persisted := none }
  | some tracker =>
    match parseConsumptionCmd parsed with
    | Except.error _ =>
      { consumption := some tracker, counter := counter, published := none,
        persisted := none }
    | Except.ok none =>
      { consumption := some tracker, counter := counter, published := none,
        persisted := none }
    | Except.ok (some m3) =>
      let tracker := tracker.set_consumption m3
      let st := buildState counter trigger.state (some tracker)
      { consumption := some tracker, counter := counter,
        published := some st, persisted := some (saveState st) }

/-- A command payload is malformed when JSON decoding fails, the decoded
value has no `consumption_m3` entry, or the entry's value is one that
`float(...)` rejects. -/
def cmdMalformed (parsed : Option PyValue) : Bool :=
  match parseConsumptionCmd parsed with
  | Except.error _ => true
  | Except.ok none => true
  | Except.ok (some _) => false

/-- A stored counter value on which `_restore_counter` raises: a string
that is not a Python integer literal. -/
def badCounterString : Option PyValue → Bool
  | some (PyValue.vstr s) => (pyIntOfString s).isNone
  | _ => false

/-- Per-state chaining of a trigger-event list: each event leaves from the
state the previous event (or the initial state) arrived at, and actually
changes state. -/
def eventsChain : TriggerState → List TriggerEvent → Prop
  | _, [] => True
  | s, e :: rest => e.previous = s ∧ e.current ≠ e.previous ∧ eventsChain e.current rest

end Gas2Mqtt

namespace Gas2Mqtt

/-- C1: feeding bz = -4000, -4000, -6000 through the polling step with the
default configuration (level -5000, hysteresis 700) from the fresh LOW
trigger and counter 0 produces a rising-edge event on the first input, no
event on the second, a falling-edge event on the third, and the counter
ends at 1. -/
theorem c1_end_to_end_scenario :
    ((SchmittTrigger.init defaultTriggerLevel defaultTriggerHysteresis).update
      (-4000)).1 =
      some { previous := TriggerState.LOW, current := TriggerState.HIGH,
             is_rising_edge := true }
    ∧ (((SchmittTrigger.init defaultTriggerLevel defaultTriggerHysteresis).update
      (-4000)).2.update (-4000)).1 = none
    ∧ ((((SchmittTrigger.init defaultTriggerLevel defaultTriggerHysteresis).update
      (-4000)).2.update (-4000)).2.update (-6000)).1 =
      some { previous := TriggerState.HIGH, current := TriggerState.LOW,
             is_rising_edge := false }
    ∧ (runEvents (SchmittTrigger.init defaultTriggerLevel defaultTriggerHysteresis)
        [-4000, -4000, -6000]).1 =
      [{ previous := TriggerState.LOW, current := TriggerState.HIGH,
         is_rising_edge := true },
       { previous := TriggerState.HIGH, current := TriggerState.LOW,
         is_rising_edge := false }]
    ∧ (runLoop (SchmittTrigger.init defaultTriggerLevel defaultTriggerHysteresis)
        0 none [-4000, -4000, -6000]).2.1 = 1 := by
  decide

/-- C2: with `hysteresis ≥ 0`, an input exactly equal to `level + hysteresis`
or `level - hysteresis` never changes the comparator state (no event, trigger
unchanged), from any state; from LOW, `level + hysteresis + 1` does
transition (to HIGH, rising edge); and with the defaults the effective
bounds are upper = -4300 and lower = -5700. -/
theorem c2_boundary_strict (level hysteresis : Int) (s : TriggerState)
    (h : 0 ≤ hysteresis) :
    (SchmittTrigger.mk level hysteresis s).update (level + hysteresis) =
      (none, SchmittTrigger.mk level hysteresis s)
    ∧ (SchmittTrigger.mk level hysteresis s).update (level - hysteresis) =
      (none, SchmittTrigger.mk level hysteresis s)
    ∧ (SchmittTrigger.mk level hysteresis TriggerState.LOW).update
        (level + hysteresis + 1) =
      (some { previous := TriggerState.LOW, current := TriggerState.HIGH,
              is_rising_edge := true },
       SchmittTrigger.mk level hysteresis TriggerState.HIGH)
    ∧ (SchmittTrigger.mk defaultTriggerLevel defaultTriggerHysteresis s).upper =
        -4300
    ∧ (SchmittTrigger.mk defaultTriggerLevel defaultTriggerHysteresis s).lower =
        -5700 := by
  refine ⟨?_, ?_, ?_, ?_, ?_⟩
  · simp only [SchmittTrigger.update, SchmittTrigger.upper, SchmittTrigger.lower]
    rw [if_neg (by omega), if_neg (by omega)]
  · simp only [SchmittTrigger.update, SchmittTrigger.upper, SchmittTrigger.lower]
    rw [if_neg (by omega), if_neg (by omega)]
  · simp only [SchmittTrigger.update, SchmittTrigger.upper, SchmittTrigger.lower]
    rw [if_pos (by omega)]
    simp
  · simp [SchmittTrigger.upper, defaultTriggerLevel, defaultTriggerHysteresis]
  · simp [SchmittTrigger.lower, defaultTriggerLevel, defaultTriggerHysteresis]

/-- Witness for C2 at the default configuration from state LOW. -/
theorem c2_boundary_strict_witness :
    (SchmittTrigger.mk (-5000) 700 TriggerState.LOW).update (-5000 + 700) =
      (none, SchmittTrigger.mk (-5000) 700 TriggerState.LOW)
    ∧ (SchmittTrigger.mk (-5000) 700 TriggerState.LOW).update (-5000 - 700) =
      (none, SchmittTrigger.mk (-5000) 700 TriggerState.LOW)
    ∧ (SchmittTrigger.mk (-5000) 700 TriggerState.LOW).update (-5000 + 700 + 1) =
      (some { previous := TriggerState.LOW, current := TriggerState.HIGH,
              is_rising_edge := true },
       SchmittTrigger.mk (-5000) 700 TriggerState.HIGH)
    ∧ (SchmittTrigger.mk defaultTriggerLevel defaultTriggerHysteresis
        TriggerState.LOW).upper = -4300
    ∧ (SchmittTrigger.mk defaultTriggerLevel defaultTriggerHysteresis
        TriggerState.LOW).lower = -5700 :=
  c2_boundary_strict (-5000) 700 TriggerState.LOW (by norm_num)

/-- Characterisation of one `update` call: a silent call leaves the trigger
untouched, and an emitted event records the states before and after the
call, actually changes the state, and flags exactly the LOW→HIGH
transition as a rising edge. -/
theorem update_event_spec (t : SchmittTrigger) (bz : Int) :
    ((t.update bz).1 = none → (t.update bz).2 = t)
    ∧ ∀ e, (t.update bz).1 = some e →
        e.previous = t.state ∧ e.current = (t.update bz).2.state
        ∧ e.current ≠ e.previous
        ∧ (e.is_rising_edge = true ↔
            (e.previous = TriggerState.LOW ∧ e.current = TriggerState.HIGH)) := by
  simp only [SchmittTrigger.update]
  split
  · exact ⟨fun _ => rfl, fun e he => by simp at he⟩
  · rename_i newState heq
    split
    · exact ⟨fun _ => rfl, fun e he => by simp at he⟩
    · rename_i hne
      refine ⟨fun h => by simp at h, fun e he => ?_⟩
      simp only [Option.some.injEq] at he
      subst he
      refine ⟨rfl, rfl, fun hc => hne hc, ?_⟩
      simp [Bool.and_eq_true, beq_iff_eq]

/-- Events collected by `runEvents` chain state-to-state starting from the
initial trigger state, and flag rising edges exactly on LOW→HIGH. -/
theorem runEvents_chain (t : SchmittTrigger) (inputs : List Int) :
    eventsChain t.state (runEvents t inputs).1
    ∧ ∀ e ∈ (runEvents t inputs).1,
        (e.is_rising_edge = true ↔
          (e.previous = TriggerState.LOW ∧ e.current = TriggerState.HIGH)) := by
  induction inputs generalizing t with
  | nil => exact ⟨trivial, by simp [runEvents]⟩
  | cons bz rest ih =>
    obtain ⟨hnone, hsome⟩ := update_event_spec t bz
    rcases hu : t.update bz with ⟨ev, t1⟩
    rw [hu] at hnone hsome
    rcases hr : runEvents t1 rest with ⟨evs, t2⟩
    obtain ⟨c, m⟩ := ih t1
    rw [hr] at c m
    cases ev with
    | none =>
      have ht1 : t1 = t := hnone rfl
      subst ht1
      simp only [runEvents, hu, hr]
      exact ⟨c, m⟩
    | some e =>
      obtain ⟨hprev, hcur, hne, hrise⟩ := hsome e rfl
      simp only [runEvents, hu, hr]
      refine ⟨⟨hprev, hne, ?_⟩, ?_⟩
      · rw [hcur]; exact c
      · intro e2 he2
        rcases List.mem_cons.mp he2 with h | h
        · subst h; exact hrise
        · exact m e2 h

/-- C3: from the initial LOW state, for every level, hysteresis ≥ 0 and
input sequence, the emitted events chain (each event departs from the state
the previous event arrived at and changes state, so events strictly
alternate), and `is_rising_edge` holds exactly for LOW→HIGH events. -/
theorem c3_event_alternation (level hysteresis : Int) (h : 0 ≤ hysteresis)
    (inputs : List Int) :
    eventsChain TriggerState.LOW
      (runEvents (SchmittTrigger.init level hysteresis) inputs).1
    ∧ ∀ e ∈ (runEvents (SchmittTrigger.init level hysteresis) inputs).1,
        (e.is_rising_edge = true ↔
          (e.previous = TriggerState.LOW ∧ e.current = TriggerState.HIGH)) :=
  runEvents_chain (SchmittTrigger.init level hysteresis) inputs

/-- Witness for C3 at the default configuration on a concrete sequence. -/
theorem c3_event_alternation_witness :
    (0 : Int) ≤ 700
    ∧ (eventsChain TriggerState.LOW
        (runEvents (SchmittTrigger.init (-5000) 700) [-4000, -6000]).1
      ∧ ∀ e ∈ (runEvents (SchmittTrigger.init (-5000) 700) [-4000, -6000]).1,
          (e.is_rising_edge = true ↔
            (e.previous = TriggerState.LOW ∧ e.current = TriggerState.HIGH))) :=
  ⟨by norm_num, c3_event_alternation (-5000) 700 (by norm_num) [-4000, -6000]⟩

/-- C4: the modulus is 65536, a rising edge takes counter `c` to
`(c + 1) % 65536`, and incrementing from 65535 wraps to 0. -/
theorem c4_counter_wrap (c : Int) (hc0 : 0 ≤ c) (hc : c ≤ 65535)
    (level hysteresis bz : Int) (consumption : Option ConsumptionTracker)
    (hbz : bz > level + hysteresis) :
    COUNTER_MODULUS = 65536
    ∧ (processPoll (SchmittTrigger.init level hysteresis) c consumption
        bz).counter = (c + 1) % 65536
    ∧ (65535 + 1) % COUNTER_MODULUS = 0 := by
  refine ⟨by decide, ?_, by decide⟩
  simp only [processPoll, SchmittTrigger.update, SchmittTrigger.upper,
    SchmittTrigger.lower, SchmittTrigger.init]
  rw [if_pos hbz]
  simp [COUNTER_MODULUS]

/-- Witness for C4 at the wrap boundary: counter 65535 goes to 0. -/
theorem c4_counter_wrap_witness :
    (0 : Int) ≤ 65535 ∧ (65535 : Int) ≤ 65535 ∧ (-4000 : Int) > -5000 + 700
    ∧ (COUNTER_MODULUS = 65536
      ∧ (processPoll (SchmittTrigger.init (-5000) 700) 65535 none
          (-4000)).counter = (65535 + 1) % 65536
      ∧ (65535 + 1) % COUNTER_MODULUS = 0) :=
  ⟨by norm_num, by norm_num, by norm_num,
   c4_counter_wrap 65535 (by norm_num) (by norm_num) (-5000) 700 (-4000) none
     (by norm_num)⟩

/-- C5: with `{"counter": 1, "consumption_m3": 0.01}` in the backing store
and consumption tracking enabled, the first published snapshot of a fresh
loop instance has counter 1, consumption 0.01 (after 3-decimal rounding)
and trigger "OPEN"; a fresh trigger always starts LOW, independent of any
state a previous instance had. -/
theorem c5_persistence_roundtrip :
    startupState (some (PyValue.vint 1)) (some (PyValue.vfloat (1/100))) true 10
      (-5000) 700 =
      Except.ok { counter := 1, trigger := "OPEN", consumption_m3 := some (1/100) }
    ∧ ∀ (level hysteresis : Int),
        (SchmittTrigger.init level hysteresis).state = TriggerState.LOW := by
  refine ⟨?_, fun level hysteresis => rfl⟩
  have h1 : ((1 : ℚ)/100) * 1000 = 10 := by norm_num
  have h2 : round3 (1/100 : ℚ) = 1/100 := by
    simp only [round3, pyRoundHalfEven, h1]
    norm_num
  have hstart : startupState (some (PyValue.vint 1)) (some (PyValue.vfloat (1/100)))
      true 10 (-5000) 700 =
      Except.ok { counter := 1, trigger := "OPEN",
                  consumption_m3 := some (round3 (1/100)) } := rfl
  rw [hstart, h2]

/-- C6: one loop iteration publishes exactly when the comparator emitted an
event for that reading, every persisted record is the published snapshot
with the `trigger` field removed, and on an event-free poll nothing is
published or persisted and the whole state is unchanged. -/
theorem c6_publish_persist_cadence (trigger : SchmittTrigger) (counter : Int)
    (consumption : Option ConsumptionTracker) (bz : Int) :
    (loopIter trigger counter consumption bz).published.isSome =
      ((trigger.update bz).1).isSome
    ∧ (loopIter trigger counter consumption bz).persisted =
      ((loopIter trigger counter consumption bz).published).map saveState
    ∧ ((trigger.update bz).1 = none →
        loopIter trigger counter consumption bz =
          { trigger := trigger, counter := counter, consumption := consumption,
            published := none, persisted := none }) := by
  obtain ⟨hnone, _⟩ := update_event_spec trigger bz
  rcases hu : trigger.update bz with ⟨ev, t1⟩
  rw [hu] at hnone
  cases ev with
  | none =>
    have ht1 : t1 = trigger := hnone rfl
    subst ht1
    simp [loopIter, processPoll, hu]
  | some e =>
    cases hr : e.is_rising_edge <;>
      simp [loopIter, processPoll, hu, hr, saveState]

/-- Witness for C6 on an event-free poll (bz inside the dead band). -/
theorem c6_publish_persist_cadence_witness :
    ((SchmittTrigger.init (-5000) 700).update (-5000)).1 = none
    ∧ loopIter (SchmittTrigger.init (-5000) 700) 0 none (-5000) =
        { trigger := SchmittTrigger.init (-5000) 700, counter := 0,
          consumption := none, published := none, persisted := none } :=
  ⟨rfl,
   (c6_publish_persist_cadence (SchmittTrigger.init (-5000) 700) 0 none
      (-5000)).2.2 rfl⟩

/-- C7 counterexample: `_restore_counter` is not total — a stored string
that is not an integer literal makes `int(raw)` raise `ValueError`. -/
theorem c7_restore_raises_on_nonnumeric_string :
    restoreCounter (some (PyValue.vstr "abc")) = Except.error "ValueError" := by
  rfl

/-- C7 amended: restore returns an integer without raising for every stored
value except a string that is not an integer literal; it returns 0 when the
value is absent and 0 for every non-int/float/str value. -/
theorem c7_restore_total_amended (stored : Option PyValue)
    (h : badCounterString stored = false) :
    (∃ n : Int, restoreCounter stored = Except.ok n)
    ∧ restoreCounter none = Except.ok 0
    ∧ (∀ xs, restoreCounter (some (PyValue.vlist xs)) = Except.ok 0)
    ∧ (∀ kvs, restoreCounter (some (PyValue.vdict kvs)) = Except.ok 0)
    ∧ restoreCounter (some PyValue.vnull) = Except.ok 0 := by
  refine ⟨?_, rfl, fun xs => rfl, fun kvs => rfl, rfl⟩
  cases stored with
  | none => exact ⟨0, rfl⟩
  | some v =>
    cases v with
    | vint n => exact ⟨n, rfl⟩
    | vbool b => exact ⟨if b then 1 else 0, rfl⟩
    | vfloat q => exact ⟨pyTrunc q, rfl⟩
    | vstr s =>
      simp only [badCounterString, Option.isNone] at h
      cases hp : pyIntOfString s with
      | none => rw [hp] at h; simp at h
      | some n => exact ⟨n, by simp [restoreCounter, hp]⟩
    | vnull => exact ⟨0, rfl⟩
    | vlist xs => exact ⟨0, rfl⟩
    | vdict kvs => exact ⟨0, rfl⟩

/-- Witness for the amended C7 on a stored integer. -/
theorem c7_restore_total_amended_witness :
    badCounterString (some (PyValue.vint 5)) = false
    ∧ ((∃ n : Int, restoreCounter (some (PyValue.vint 5)) = Except.ok n)
      ∧ restoreCounter none = Except.ok 0
      ∧ (∀ xs, restoreCounter (some (PyValue.vlist xs)) = Except.ok 0)
      ∧ (∀ kvs, restoreCounter (some (PyValue.vdict kvs)) = Except.ok 0)
      ∧ restoreCounter (some PyValue.vnull) = Except.ok 0) :=
  ⟨rfl, c7_restore_total_amended (some (PyValue.vint 5)) rfl⟩

/-- C8: a malformed command (undecodable JSON, missing `consumption_m3`
entry, or a value `float(...)` rejects), or any command while tracking is
disabled, leaves consumption and counter unchanged, publishes nothing and
persists nothing. -/
theorem c8_malformed_command_no_change (consumption : Option ConsumptionTracker)
    (counter : Int) (trigger : SchmittTrigger) (parsed : Option PyValue)
    (h : cmdMalformed parsed = true ∨ consumption = none) :
    handleCommand consumption counter trigger parsed =
      { consumption := consumption, counter := counter,
        published := none, persisted := none } := by
  cases consumption with
  | none => rfl
  | some tracker =>
    rcases h with hm | hn
    · simp only [cmdMalformed] at hm
      simp only [handleCommand]
      cases hp : parseConsumptionCmd parsed with
      | error e => rfl
      | ok o =>
        cases o with
        | none => rfl
        | some m3 => rw [hp] at hm; simp at hm
    · exact absurd hn (by simp)

/-- Witness for C8 on an undecodable payload. -/
theorem c8_malformed_command_no_change_witness :
    (cmdMalformed none = true
      ∨ (some (ConsumptionTracker.mk 10 0) : Option ConsumptionTracker) = none)
    ∧ handleCommand (some (ConsumptionTracker.mk 10 0)) 3
        (SchmittTrigger.init (-5000) 700) none =
      { consumption := some (ConsumptionTracker.mk 10 0), counter := 3,
        published := none, persisted := none } :=
  ⟨Or.inl rfl,
   c8_malformed_command_no_change (some (ConsumptionTracker.mk 10 0)) 3
     (SchmittTrigger.init (-5000) 700) none (Or.inl rfl)⟩

/-- C9: a fresh (or reset) filter returns the first sample unchanged, a
seeded filter returns `(1 - alpha) * previous + alpha * raw`, and with
alpha 0.2, seed 100, the next update with 200 yields 120. -/
theorem c9_ewma_seeding :
    (∀ (alpha x : ℚ), ((EwmaFilter.init alpha).update x).1 = x)
    ∧ (∀ (f : EwmaFilter) (x : ℚ), ((f.reset).update x).1 = x)
    ∧ (∀ (alpha v raw : ℚ),
        ((EwmaFilter.mk alpha (some v)).update raw).1 =
          (1 - alpha) * v + alpha * raw)
    ∧ (((EwmaFilter.init (1/5)).update 100).2.update 200).1 = 120 := by
  refine ⟨fun alpha x => rfl, fun f x => rfl, fun alpha v raw => rfl, ?_⟩
  norm_num [EwmaFilter.init, EwmaFilter.update]

/-- C10: `set_consumption` stores any value, including negative ones,
without validation; it leaves `liters_per_tick` alone; a subsequent tick
adds `liters_per_tick / 1000`; the command handler never changes the
counter; and the stored total can go negative. -/
theorem c10_set_consumption_unchecked :
    (∀ (t : ConsumptionTracker) (m3 : ℚ),
      (t.set_consumption m3).consumption_m3 = m3
      ∧ (t.set_consumption m3).liters_per_tick = t.liters_per_tick
      ∧ ((t.set_consumption m3).tick).1 = m3 + t.liters_per_tick / 1000)
    ∧ (∀ (consumption : Option ConsumptionTracker) (counter : Int)
        (trigger : SchmittTrigger) (parsed : Option PyValue),
        (handleCommand consumption counter trigger parsed).counter = counter)
    ∧ ((ConsumptionTracker.mk 10 0).set_consumption (-1)).consumption_m3 < 0 := by
  refine ⟨fun t m3 => ⟨rfl, rfl, rfl⟩, ?_,
    by norm_num [ConsumptionTracker.set_consumption]⟩
  intro consumption counter trigger parsed
  cases consumption with
  | none => rfl
  | some tracker =>
    simp only [handleCommand]
    cases parseConsumptionCmd parsed with
    | error e => rfl
    | ok o =>
      cases o with
      | none => rfl
      | some m3 => rfl

end Gas2Mqtt
